import Mathlib

/-!
Shallow embedding of the OpenVMM TDISP guest/host command protocol and its
host-side lifecycle state machine, translated from:
  src/vm/devices/tdisp/src/lib.rs        (host state machine, router/emulator)
  src/vm/devices/tdisp/src/command.rs    (command/response data model, wire conversions)
  src/vm/devices/tdisp/src/serialize.rs  (byte-level codec)
  src/openhcl/openhcl_tdisp/src/lib.rs   (guest-side VFIO client dispatcher)

Machine integers are modelled as Nat with explicit bounds where overflow
matters; fallible Rust code returns Option or a dedicated outcome type whose
distinguished constructor models a Rust panic. Diagnostic-only pieces
(tracing calls, the debug_device_id string, anyhow error message payloads)
carry no protocol information and are dropped from the embedding.
-/

namespace Tdisp

/-- `TdispTdiState` from lib.rs (the state-machine revision: four variants,
no `Error` state). -/
inductive TdispTdiState where
  | Uninitialized
  | Unlocked
  | Locked
  | Run
deriving DecidableEq, Repr

/-- `From<TdispTdiState> for u64` in lib.rs. -/
def tdiStateToU64 : TdispTdiState → Nat
  | .Uninitialized => 0
  | .Unlocked => 1
  | .Locked => 2
  | .Run => 3

/-- `From<u64> for TdispTdiState` in lib.rs (total; fallback `Uninitialized`). -/
def tdiStateFromU64 : Nat → TdispTdiState
  | 0 => .Uninitialized
  | 1 => .Unlocked
  | 2 => .Locked
  | 3 => .Run
  | _ => .Uninitialized

/-- `TdispGuestUnbindReason` from lib.rs. -/
inductive TdispGuestUnbindReason where
  | Unknown
  | Graceful
deriving DecidableEq, Repr

/-- `From<u64> for TdispGuestUnbindReason` in lib.rs. -/
def guestUnbindReasonFromU64 : Nat → TdispGuestUnbindReason
  | 1 => .Graceful
  | _ => .Unknown

/-- `From<TdispGuestUnbindReason> for u64` in lib.rs. -/
def guestUnbindReasonToU64 : TdispGuestUnbindReason → Nat
  | .Unknown => 0
  | .Graceful => 1

/-- `TdispUnbindReason` from lib.rs. The `anyhow::Error` payloads carried by
some variants are diagnostic strings only and are dropped. -/
inductive TdispUnbindReason where
  | Unknown
  | GuestInitiated (reason : TdispGuestUnbindReason)
  | ImpossibleStateTransition
  | InvalidGuestTransitionToLocked
  | InvalidGuestTransitionToRun
  | InvalidGuestGetAttestationReportState
  | InvalidGuestAcceptAttestationReportState
  | InvalidGuestUnbindReason
deriving DecidableEq, Repr

/-- `TdispGuestOperationError` from lib.rs. -/
inductive TdispGuestOperationError where
  | Success
  | InvalidDeviceState
  | InvalidGuestUnbindReason
  | InvalidGuestCommandId
  | NotImplemented
  | HostFailedToProcessCommand
  | InvalidGuestAttestationReportState
  | InvalidGuestAttestationReportType
deriving DecidableEq, Repr

/-- `From<TdispGuestOperationError> for u64` in lib.rs. -/
def tdispGuestOperationErrorToU64 : TdispGuestOperationError → Nat
  | .Success => 0
  | .InvalidDeviceState => 1
  | .InvalidGuestUnbindReason => 2
  | .InvalidGuestCommandId => 3
  | .NotImplemented => 4
  | .HostFailedToProcessCommand => 5
  | .InvalidGuestAttestationReportState => 6
  | .InvalidGuestAttestationReportType => 7

/-- `From<u64> for TdispGuestOperationError` in lib.rs: values above 7 hit
the `panic!` arm, modelled as `none`. -/
def tdispGuestOperationErrorFromU64 : Nat → Option TdispGuestOperationError
  | 0 => some .Success
  | 1 => some .InvalidDeviceState
  | 2 => some .InvalidGuestUnbindReason
  | 3 => some .InvalidGuestCommandId
  | 4 => some .NotImplemented
  | 5 => some .HostFailedToProcessCommand
  | 6 => some .InvalidGuestAttestationReportState
  | 7 => some .InvalidGuestAttestationReportType
  | _ => none

/-- `TdispTdiReport` from lib.rs. -/
inductive TdispTdiReport where
  | TdiInfoInvalid
  | TdiInfoGuestDeviceId
  | TdiInfoInterfaceReport
deriving DecidableEq, Repr

/-- `TdispDeviceReport` from lib.rs. -/
inductive TdispDeviceReport where
  | DeviceInfoInvalid
  | DeviceInfoCertificateChain
  | DeviceInfoMeasurements
  | DeviceInfoIsRegistered
deriving DecidableEq, Repr

/-- `TdispDeviceReportType` from lib.rs. -/
inductive TdispDeviceReportType where
  | TdiReport (report : TdispTdiReport)
  | DeviceReport (report : TdispDeviceReport)
deriving DecidableEq, Repr

/-- `From<&TdispTdiReport> for u32` in lib.rs. -/
def tdiReportToU32 : TdispTdiReport → Nat
  | .TdiInfoInvalid => 0
  | .TdiInfoGuestDeviceId => 1
  | .TdiInfoInterfaceReport => 2

/-- `From<&TdispDeviceReport> for u32` in lib.rs
(`TDISP_TDI_REPORT_ENUM_COUNT = 3`). -/
def deviceReportToU32 : TdispDeviceReport → Nat
  | .DeviceInfoInvalid => 3
  | .DeviceInfoCertificateChain => 4
  | .DeviceInfoMeasurements => 5
  | .DeviceInfoIsRegistered => 6

/-- `From<&TdispDeviceReportType> for u32` in lib.rs. -/
def deviceReportTypeToU32 : TdispDeviceReportType → Nat
  | .TdiReport r => tdiReportToU32 r
  | .DeviceReport r => deviceReportToU32 r

/-- `From<u32> for TdispDeviceReportType` in lib.rs (total; fallback
`TdiReport TdiInfoInvalid`). -/
def deviceReportTypeFromU32 : Nat → TdispDeviceReportType
  | 0 => .TdiReport .TdiInfoInvalid
  | 1 => .TdiReport .TdiInfoGuestDeviceId
  | 2 => .TdiReport .TdiInfoInterfaceReport
  | 3 => .DeviceReport .DeviceInfoInvalid
  | 4 => .DeviceReport .DeviceInfoCertificateChain
  | 5 => .DeviceReport .DeviceInfoMeasurements
  | 6 => .DeviceReport .DeviceInfoIsRegistered
  | _ => .TdiReport .TdiInfoInvalid

/-- `TdispCommandId` from command.rs. -/
inductive TdispCommandId where
  | Unknown
  | GetDeviceInterfaceInfo
  | Bind
  | GetTdiReport
  | StartTdi
  | Unbind
deriving DecidableEq, Repr

/-- `From<TdispCommandId> for u64` in command.rs. -/
def commandIdToU64 : TdispCommandId → Nat
  | .Unknown => 0
  | .GetDeviceInterfaceInfo => 1
  | .Bind => 2
  | .GetTdiReport => 3
  | .StartTdi => 4
  | .Unbind => 5

/-- `From<u64> for TdispCommandId` in command.rs (total; fallback `Unknown`). -/
def commandIdFromU64 : Nat → TdispCommandId
  | 0 => .Unknown
  | 1 => .GetDeviceInterfaceInfo
  | 2 => .Bind
  | 3 => .GetTdiReport
  | 4 => .StartTdi
  | 5 => .Unbind
  | _ => .Unknown

/-! ## Host state machine (lib.rs)

The `host_interface: Arc<Mutex<dyn TdispHostDeviceInterface>>` capability is
an external collaborator; each state-machine operation performs at most one
call on it, so its behavior for one operation is modelled as a record of
outcomes passed to that operation. -/

/-- One-call behavior of the external `TdispHostDeviceInterface`
collaborator: whether each fallible action succeeds, and the bytes a
successful `tdisp_get_device_report` returns. -/
structure HostInterface where
  bindOk : Bool
  startOk : Bool
  unbindOk : Bool
  reportOk : Bool
  reportBytes : List Nat
deriving DecidableEq, Repr

/-- `TDISP_STATE_HISTORY_LEN` from lib.rs. -/
def TDISP_STATE_HISTORY_LEN : Nat := 10

/-- The `if len == TDISP_STATE_HISTORY_LEN { remove(0) }; push(x)` sequence
used for both history buffers in lib.rs. -/
def pushCapped {α : Type} (h : List α) (x : α) : List α :=
  (if h.length = TDISP_STATE_HISTORY_LEN then h.drop 1 else h) ++ [x]

/-- `TdispHostStateMachine` from lib.rs. The `debug_device_id` string is
diagnostic only and the `host_interface` handle is passed per operation. -/
structure TdispHostStateMachine where
  current_state : TdispTdiState
  state_history : List TdispTdiState
  unbind_reason_history : List TdispUnbindReason
deriving DecidableEq, Repr

/-- `TdispHostStateMachine::new` from lib.rs. -/
def TdispHostStateMachine.new : TdispHostStateMachine :=
  { current_state := .Unlocked, state_history := [], unbind_reason_history := [] }

/-- `TdispHostStateMachine::is_valid_state_transition` from lib.rs. -/
def TdispHostStateMachine.is_valid_state_transition
    (m : TdispHostStateMachine) (new_state : TdispTdiState) : Bool :=
  match m.current_state, new_state with
  | .Unlocked, .Locked => true
  | .Locked, .Run => true
  | .Run, .Unlocked => true
  | .Locked, .Unlocked => true
  | .Unlocked, .Unlocked => true
  | _, _ => false

/-- `TdispHostStateMachine::is_valid_guest_unbind_reason` from lib.rs. -/
def TdispHostStateMachine.is_valid_guest_unbind_reason
    (_m : TdispHostStateMachine) (reason : TdispGuestUnbindReason) : Bool :=
  !(reason = TdispGuestUnbindReason.Unknown)

/-- `TdispHostStateMachine::transition_state_to` from lib.rs: `none` models
the `Err` return (machine unmodified), `some` the updated machine. -/
def TdispHostStateMachine.transition_state_to
    (m : TdispHostStateMachine) (new_state : TdispTdiState) :
    Option TdispHostStateMachine :=
  if m.is_valid_state_transition new_state then
    some { m with
           current_state := new_state,
           state_history := pushCapped m.state_history m.current_state }
  else
    none

/-- Outcome of `TdispHostStateMachine::unbind_all` from lib.rs:
`panicked` models the `panic!` on an impossible drive-to-Unlocked,
`hostErr` the early `Err` return after the host unbind action failed
(state already moved, reason not recorded), `ok` the success path. -/
inductive UnbindAllOutcome where
  | panicked
  | hostErr (m : TdispHostStateMachine)
  | ok (m : TdispHostStateMachine)
deriving DecidableEq, Repr

/-- `TdispHostStateMachine::unbind_all` from lib.rs. -/
def TdispHostStateMachine.unbind_all (m : TdispHostStateMachine)
    (host : HostInterface) (reason : TdispUnbindReason) : UnbindAllOutcome :=
  match m.transition_state_to .Unlocked with
  | none => .panicked
  | some m1 =>
    if !host.unbindOk then
      .hostErr m1
    else
      .ok { m1 with
            unbind_reason_history := pushCapped m1.unbind_reason_history reason }

/-- Outcome of one `TdispGuestRequestInterface` method on the state machine:
`panicked` models a Rust panic, `err`/`ok` the `Result` value paired with
the machine after the call. -/
inductive ReqOutcome (α : Type) where
  | panicked
  | err (e : TdispGuestOperationError) (m : TdispHostStateMachine)
  | ok (a : α) (m : TdispHostStateMachine)
deriving DecidableEq, Repr

/-- `request_lock_device_resources` from the
`TdispGuestRequestInterface for TdispHostStateMachine` impl in lib.rs. -/
def TdispHostStateMachine.request_lock_device_resources
    (m : TdispHostStateMachine) (host : HostInterface) : ReqOutcome Unit :=
  if m.current_state ≠ .Unlocked then
    match m.unbind_all host .InvalidGuestTransitionToLocked with
    | .panicked => .panicked
    | .hostErr m1 => .err .HostFailedToProcessCommand m1
    | .ok m1 => .err .InvalidDeviceState m1
  else if !host.bindOk then
    .err .HostFailedToProcessCommand m
  else
    match m.transition_state_to .Locked with
    | none => .panicked
    | some m1 => .ok () m1

/-- `request_start_tdi` from the
`TdispGuestRequestInterface for TdispHostStateMachine` impl in lib.rs. -/
def TdispHostStateMachine.request_start_tdi
    (m : TdispHostStateMachine) (host : HostInterface) : ReqOutcome Unit :=
  if m.current_state ≠ .Locked then
    match m.unbind_all host .InvalidGuestTransitionToRun with
    | .panicked => .panicked
    | .hostErr m1 => .err .HostFailedToProcessCommand m1
    | .ok m1 => .err .InvalidDeviceState m1
  else if !host.startOk then
    .err .HostFailedToProcessCommand m
  else
    match m.transition_state_to .Run with
    | none => .panicked
    | some m1 => .ok () m1

/-- `request_attestation_report` from the
`TdispGuestRequestInterface for TdispHostStateMachine` impl in lib.rs. -/
def TdispHostStateMachine.request_attestation_report
    (m : TdispHostStateMachine) (host : HostInterface)
    (report_type : TdispDeviceReportType) : ReqOutcome (List Nat) :=
  if m.current_state ≠ .Locked ∧ m.current_state ≠ .Run then
    match m.unbind_all host .InvalidGuestGetAttestationReportState with
    | .panicked => .panicked
    | .hostErr m1 => .err .HostFailedToProcessCommand m1
    | .ok m1 => .err .InvalidGuestAttestationReportState m1
  else
    match report_type with
    | .TdiReport .TdiInfoInvalid => .err .InvalidGuestAttestationReportType m
    | .DeviceReport .DeviceInfoInvalid => .err .InvalidGuestAttestationReportType m
    | _ =>
      if !host.reportOk then
        .err .HostFailedToProcessCommand m
      else
        .ok host.reportBytes m

/-- `request_unbind` from the
`TdispGuestRequestInterface for TdispHostStateMachine` impl in lib.rs. -/
def TdispHostStateMachine.request_unbind (m : TdispHostStateMachine)
    (host : HostInterface) (reason : TdispGuestUnbindReason) : ReqOutcome Unit :=
  let recorded : TdispUnbindReason :=
    if !(m.is_valid_guest_unbind_reason reason) then
      .InvalidGuestUnbindReason
    else
      .GuestInitiated reason
  match m.unbind_all host recorded with
  | .panicked => .panicked
  | .hostErr m1 => .err .HostFailedToProcessCommand m1
  | .ok m1 => .ok () m1

/-! ## Host dispatch emulator / command router (lib.rs,
`TdispHostDeviceTargetEmulator::tdisp_handle_guest_command`)

The lib.rs-revision `GuestToHostCommand` carries a request payload matched
by the router (`TdispCommandRequestPayload` with `Unbind` and `GetTdiReport`
variants); that enum's declaration belongs to a command.rs revision that is
not under src, so its field content is modelled from the spec. -/

/-- Modelled from the spec: the request payload variants of §3
(`None`, `Unbind { unbind_reason }`, `GetTdiReport { report_type }`), the
declaration of the lib.rs-revision `TdispCommandRequestPayload` /
`TdispCommandRequestGetTdiReport` being absent from src. `unbind_reason`
is a u64 and `report_type` a u32, as consumed by the router. -/
inductive RouterRequestPayload where
  | None
  | Unbind (unbind_reason : Nat)
  | GetTdiReport (report_type : Nat)
deriving DecidableEq, Repr

/-- The lib.rs-revision `GuestToHostCommand` consumed by the router:
`response_gpa`/`device_id`/`command_id` per command.rs, plus the request
payload the router matches on. -/
structure RouterCommand where
  response_gpa : Nat
  device_id : Nat
  command_id : TdispCommandId
  payload : RouterRequestPayload
deriving DecidableEq, Repr

/-- The response payload cases produced by the router in lib.rs:
`TdispCommandResponsePayload::{None, GetDeviceInterfaceInfo, GetTdiReport}`.
`GetDeviceInterfaceInfo` carries the four fields built by
`TdispHostDeviceTargetEmulator::get_device_interface_info`. -/
inductive RouterResponsePayload where
  | None
  | GetDeviceInterfaceInfo (interface_version_major interface_version_minor
      supported_features tdisp_device_id : Nat)
  | GetTdiReport (report_type : Nat) (report_buffer : List Nat)
deriving DecidableEq, Repr

/-- The lib.rs-revision `GuestToHostResponse` assembled by the router. -/
structure RouterResponse where
  command_id : TdispCommandId
  result : TdispGuestOperationError
  tdi_state_before : TdispTdiState
  tdi_state_after : TdispTdiState
  payload : RouterResponsePayload
deriving DecidableEq, Repr

/-- `TDISP_INTERFACE_VERSION_MAJOR` from lib.rs. -/
def TDISP_INTERFACE_VERSION_MAJOR : Nat := 1

/-- `TDISP_INTERFACE_VERSION_MINOR` from lib.rs. -/
def TDISP_INTERFACE_VERSION_MINOR : Nat := 0

/-- `TdispHostDeviceTargetEmulator::tdisp_handle_guest_command` from lib.rs,
with the emulator's machine state passed explicitly; `none` models a panic
escaping from the state-machine call. -/
def tdisp_handle_guest_command (m : TdispHostStateMachine)
    (host : HostInterface) (command : RouterCommand) :
    Option (RouterResponse × TdispHostStateMachine) :=
  let state_before := m.current_state
  let build := fun (error : TdispGuestOperationError)
      (payload : RouterResponsePayload) (m1 : TdispHostStateMachine) =>
    some ({ command_id := command.command_id, result := error,
            tdi_state_before := state_before,
            tdi_state_after := m1.current_state,
            payload := payload }, m1)
  match command.command_id with
  | .GetDeviceInterfaceInfo =>
    build .Success
      (.GetDeviceInterfaceInfo TDISP_INTERFACE_VERSION_MAJOR
        TDISP_INTERFACE_VERSION_MINOR 0 0) m
  | .Bind =>
    match m.request_lock_device_resources host with
    | .panicked => none
    | .err e m1 => build e .None m1
    | .ok _ m1 => build .Success .None m1
  | .StartTdi =>
    match m.request_start_tdi host with
    | .panicked => none
    | .err e m1 => build e .None m1
    | .ok _ m1 => build .Success .None m1
  | .Unbind =>
    let unbind_reason : TdispGuestUnbindReason :=
      match command.payload with
      | .Unbind unbind_reason => guestUnbindReasonFromU64 unbind_reason
      | _ => .Unknown
    match m.request_unbind host unbind_reason with
    | .panicked => none
    | .err e m1 => build e .None m1
    | .ok _ m1 => build .Success .None m1
  | .GetTdiReport =>
    let report_type : TdispDeviceReportType :=
      match command.payload with
      | .GetTdiReport rt => deviceReportTypeFromU32 rt
      | _ => .TdiReport .TdiInfoInvalid
    match m.request_attestation_report host report_type with
    | .panicked => none
    | .err e m1 => build e .None m1
    | .ok buf m1 =>
      build .Success (.GetTdiReport (deviceReportTypeToU32 report_type) buf) m1
  | .Unknown =>
    build .InvalidGuestCommandId .None m

/-! ## Reachability of state-machine configurations

Reachability from `TdispHostStateMachine::new` through the four
`TdispGuestRequestInterface` methods, with arbitrary host-interface
behavior and arguments at each step. -/

/-- One guest request to the state machine together with the host-interface
behavior observed during that call. -/
inductive GuestRequest where
  | lock (host : HostInterface)
  | start (host : HostInterface)
  | report (host : HostInterface) (report_type : TdispDeviceReportType)
  | unbind (host : HostInterface) (reason : TdispGuestUnbindReason)

/-- The machine after one guest request; `none` models a panic. -/
def ReqOutcome.machineAfter {α : Type} : ReqOutcome α → Option TdispHostStateMachine
  | .panicked => none
  | .err _ m => some m
  | .ok _ m => some m

/-- One step of the state machine under a guest request; `none` models a
panic during the call. -/
def step (m : TdispHostStateMachine) : GuestRequest → Option TdispHostStateMachine
  | .lock host => (m.request_lock_device_resources host).machineAfter
  | .start host => (m.request_start_tdi host).machineAfter
  | .report host report_type =>
    (m.request_attestation_report host report_type).machineAfter
  | .unbind host reason => (m.request_unbind host reason).machineAfter

/-- Machines reachable from construction through guest requests. -/
inductive Reachable : TdispHostStateMachine → Prop where
  | new : Reachable TdispHostStateMachine.new
  | step {m m1 : TdispHostStateMachine} {req : GuestRequest} :
      Reachable m → step m req = some m1 → Reachable m1

/-! ## Byte-level codec (serialize.rs)

The serialize.rs revision of `GuestToHostCommand` (per its
`From<GuestToHostCommandSerializedHeader>` impl) has fields
`device_id`, `command_id` and a request `payload` with `None`/`Unbind`
variants; its `GuestToHostResponse` carries a `TdispCommandResponsePayload`
with `None`/`GetDeviceInterfaceInfo` variants. All integer fields are
u64/u32 encoded little-endian by zerocopy `as_bytes`. -/

/-- Little-endian bytes of a u64 value (zerocopy `as_bytes` of a u64 field;
the value is a Nat below 2^64 wherever a source u64 holds it). -/
def u64ToLeBytes (n : Nat) : List Nat :=
  [n % 256, n / 256 % 256, n / 256 ^ 2 % 256, n / 256 ^ 3 % 256,
   n / 256 ^ 4 % 256, n / 256 ^ 5 % 256, n / 256 ^ 6 % 256, n / 256 ^ 7 % 256]

/-- Little-endian bytes of a u32 value. -/
def u32ToLeBytes (n : Nat) : List Nat :=
  [n % 256, n / 256 % 256, n / 256 ^ 2 % 256, n / 256 ^ 3 % 256]

/-- Value of a little-endian byte list (first byte least significant). -/
def leBytesToNat (bs : List Nat) : Nat :=
  bs.foldr (fun b acc => b + 256 * acc) 0

/-- Modelled from the spec: `TdispCommandRequestUnbind`, the
`Unbind { unbind_reason }` request payload of §3 whose struct declaration is
absent from src; serialize.rs reads and writes it with zerocopy, so it is a
single u64 `unbind_reason` field (8 bytes on the wire). -/
structure TdispCommandRequestUnbind where
  unbind_reason : Nat
deriving DecidableEq, Repr

/-- The serialize.rs-revision `TdispCommandRequestPayload`
(`None` / `Unbind`). -/
inductive TdispCommandRequestPayload where
  | None
  | Unbind (info : TdispCommandRequestUnbind)
deriving DecidableEq, Repr

/-- The serialize.rs-revision `GuestToHostCommand`: `device_id`,
`command_id` and the request payload (shape per its
`From<GuestToHostCommandSerializedHeader>` impl). -/
structure GuestToHostCommand where
  device_id : Nat
  command_id : TdispCommandId
  payload : TdispCommandRequestPayload
deriving DecidableEq, Repr

/-- `TdispDeviceInterfaceInfo` from command.rs: two u32 version fields and a
u64 feature bitfield (16 bytes on the wire). -/
structure TdispDeviceInterfaceInfo where
  interface_version_major : Nat
  interface_version_minor : Nat
  supported_features : Nat
deriving DecidableEq, Repr

/-- `TdispCommandResponsePayload` from command.rs / serialize.rs
(`None` / `GetDeviceInterfaceInfo`). -/
inductive TdispCommandResponsePayload where
  | None
  | GetDeviceInterfaceInfo (info : TdispDeviceInterfaceInfo)
deriving DecidableEq, Repr

/-- The serialize.rs-revision `GuestToHostResponse`: the four u64 header
fields of `GuestToHostResponseSerializedHeader` plus the response payload. -/
structure GuestToHostResponse where
  command_id : TdispCommandId
  result : TdispGuestOperationError
  tdi_state_before : TdispTdiState
  tdi_state_after : TdispTdiState
  payload : TdispCommandResponsePayload
deriving DecidableEq, Repr

/-- Outcome of `deserialize_from_bytes`: `panicked` models a Rust panic
(out-of-range slice index, or the `From<u64> for TdispGuestOperationError`
panic arm), `fail` the `Err(anyhow!(..))` returns, `ok` a decoded packet. -/
inductive DeserOutcome (α : Type) where
  | panicked
  | fail
  | ok (a : α)
deriving DecidableEq, Repr

/-- `SerializePacket::serialize_to_bytes for GuestToHostCommand` from
serialize.rs: the 16-byte header (`device_id`, `command_id`) followed by the
payload bytes. -/
def GuestToHostCommand.serialize_to_bytes (c : GuestToHostCommand) : List Nat :=
  u64ToLeBytes c.device_id ++ u64ToLeBytes (commandIdToU64 c.command_id) ++
    (match c.payload with
     | .None => []
     | .Unbind info => u64ToLeBytes info.unbind_reason)

/-- `SerializePacket::deserialize_from_bytes for GuestToHostCommand` from
serialize.rs. The source slices `&bytes[0..16]` unconditionally, which
panics on fewer than 16 bytes (`panicked`); `try_ref_from_bytes` on the
exactly-sized all-u64 header slice always succeeds; the `Unbind` payload is
read with `try_read_from_bytes`, failing unless the remaining slice is
exactly 8 bytes; `StartTdi`, `GetTdiReport` and `Unknown` ids hit the
catch-all `Err` arm. -/
def GuestToHostCommand.deserialize_from_bytes (bytes : List Nat) :
    DeserOutcome GuestToHostCommand :=
  if bytes.length < 16 then
    .panicked
  else
    let device_id := leBytesToNat (bytes.take 8)
    let command_id := commandIdFromU64 (leBytesToNat ((bytes.drop 8).take 8))
    let payload_slice := bytes.drop 16
    match command_id with
    | .Unbind =>
      if payload_slice.length = 8 then
        .ok { device_id := device_id, command_id := command_id,
              payload := .Unbind { unbind_reason := leBytesToNat payload_slice } }
      else
        .fail
    | .Bind => .ok { device_id := device_id, command_id := command_id, payload := .None }
    | .GetDeviceInterfaceInfo =>
      .ok { device_id := device_id, command_id := command_id, payload := .None }
    | _ => .fail

/-- `SerializePacket::serialize_to_bytes for GuestToHostResponse` from
serialize.rs: the 32-byte header followed by the payload bytes
(`TdispDeviceInterfaceInfo` as u32, u32, u64 little-endian). -/
def GuestToHostResponse.serialize_to_bytes (r : GuestToHostResponse) : List Nat :=
  u64ToLeBytes (commandIdToU64 r.command_id) ++
    u64ToLeBytes (tdispGuestOperationErrorToU64 r.result) ++
    u64ToLeBytes (tdiStateToU64 r.tdi_state_before) ++
    u64ToLeBytes (tdiStateToU64 r.tdi_state_after) ++
    (match r.payload with
     | .None => []
     | .GetDeviceInterfaceInfo info =>
       u32ToLeBytes info.interface_version_major ++
         u32ToLeBytes info.interface_version_minor ++
         u64ToLeBytes info.supported_features)

/-- `SerializePacket::deserialize_from_bytes for GuestToHostResponse` from
serialize.rs. Slicing `&bytes[0..32]` panics on fewer than 32 bytes; the
header-to-packet conversion decodes `result` through
`From<u64> for TdispGuestOperationError`, whose panic arm fires for values
above 7; the `GetDeviceInterfaceInfo` payload is read with
`try_read_from_bytes`, failing unless the remaining slice is exactly
16 bytes; `StartTdi`, `GetTdiReport` and `Unknown` ids hit the catch-all
`Err` arm. -/
def GuestToHostResponse.deserialize_from_bytes (bytes : List Nat) :
    DeserOutcome GuestToHostResponse :=
  if bytes.length < 32 then
    .panicked
  else
    let command_id := commandIdFromU64 (leBytesToNat (bytes.take 8))
    match tdispGuestOperationErrorFromU64 (leBytesToNat ((bytes.drop 8).take 8)) with
    | none => .panicked
    | some result =>
      let tdi_state_before := tdiStateFromU64 (leBytesToNat ((bytes.drop 16).take 8))
      let tdi_state_after := tdiStateFromU64 (leBytesToNat ((bytes.drop 24).take 8))
      let payload_slice := bytes.drop 32
      match command_id with
      | .GetDeviceInterfaceInfo =>
        if payload_slice.length = 16 then
          .ok { command_id := command_id, result := result,
                tdi_state_before := tdi_state_before,
                tdi_state_after := tdi_state_after,
                payload := .GetDeviceInterfaceInfo
                  { interface_version_major := leBytesToNat (payload_slice.take 4),
                    interface_version_minor :=
                      leBytesToNat ((payload_slice.drop 4).take 4),
                    supported_features := leBytesToNat (payload_slice.drop 8) } }
        else
          .fail
      | .Bind =>
        .ok { command_id := command_id, result := result,
              tdi_state_before := tdi_state_before,
              tdi_state_after := tdi_state_after, payload := .None }
      | .Unbind =>
        .ok { command_id := command_id, result := result,
              tdi_state_before := tdi_state_before,
              tdi_state_after := tdi_state_after, payload := .None }
      | _ => .fail

/-! ## Client-side wire conversions (command.rs) and the guest VFIO
dispatcher (openhcl_tdisp/src/lib.rs)

The command.rs revision in src declares `GuestToHostCommand` without a
payload field and a `TdispTdiState` that includes an `Error` variant (per
`tdisp_state_from_hvcall`). The hvdef `TdispGuestToHostResponse` wire
struct is not under src and is modelled from the spec. -/

/-- The command.rs-revision `TdispTdiState` as mapped by
`tdisp_state_from_hvcall` / `tdisp_state_to_hvcall`: it includes an `Error`
variant in addition to the four machine states. -/
inductive ClientTdiState where
  | Uninitialized
  | Unlocked
  | Locked
  | Run
  | Error
deriving DecidableEq, Repr

/-- `tdisp_state_from_hvcall` from command.rs (total; fallback
`Uninitialized`). -/
def tdisp_state_from_hvcall : Nat → ClientTdiState
  | 0 => .Uninitialized
  | 1 => .Unlocked
  | 2 => .Locked
  | 3 => .Run
  | 4 => .Error
  | _ => .Uninitialized

/-- `tdisp_state_to_hvcall` from command.rs. -/
def tdisp_state_to_hvcall : ClientTdiState → Nat
  | .Uninitialized => 0
  | .Unlocked => 1
  | .Locked => 2
  | .Run => 3
  | .Error => 4

/-- The command.rs-revision `GuestToHostCommand` (also the one built by the
guest VFIO dispatcher): `response_gpa`, `device_id`, `command_id`. -/
structure ClientGuestToHostCommand where
  response_gpa : Nat
  device_id : Nat
  command_id : TdispCommandId
deriving DecidableEq, Repr

/-- Modelled from the spec: `hvdef::hypercall::TdispGuestToHostResponse`,
whose declaration is absent from src. Per the §6 response header layout and
the field accesses in command.rs it has u64 `command_id`, `result`,
`tdi_state_before`, `tdi_state_after` and a fixed 2048-byte payload array
(`payload: [0; 2048]` in command.rs). -/
structure TdispGuestToHostResponseWire where
  command_id : Nat
  result : Nat
  tdi_state_before : Nat
  tdi_state_after : Nat
  payload : List Nat
deriving DecidableEq, Repr

/-- The command.rs-revision `GuestToHostResponse` produced by
`From<TdispGuestToHostResponse>`. -/
structure ClientGuestToHostResponse where
  command_id : TdispCommandId
  result : TdispGuestOperationError
  tdi_state_before : ClientTdiState
  tdi_state_after : ClientTdiState
  payload : TdispCommandResponsePayload
deriving DecidableEq, Repr

/-- `deserialize_payload` from command.rs: for `GetDeviceInterfaceInfo` it
slices `payload[0..16]` (a panic, `none`, if fewer than 16 bytes are
available — impossible for the fixed 2048-byte wire array) and reads the
info struct with `read_from_bytes`, which always succeeds on the
exactly-sized slice; every other command id yields the `None` payload. -/
def deserialize_payload (command_id : TdispCommandId) (payload : List Nat) :
    Option TdispCommandResponsePayload :=
  match command_id with
  | .GetDeviceInterfaceInfo =>
    if payload.length < 16 then
      none
    else
      some (.GetDeviceInterfaceInfo
        { interface_version_major := leBytesToNat (payload.take 4),
          interface_version_minor := leBytesToNat ((payload.drop 4).take 4),
          supported_features := leBytesToNat ((payload.drop 8).take 8) })
  | _ => some .None

/-- `From<TdispGuestToHostResponse> for GuestToHostResponse` from
command.rs; `none` models a panic (the `From<u64> for
TdispGuestOperationError` panic arm for `result` values above 7, evaluated
before the payload is deserialized, or the `deserialize_payload` slice). -/
def guestToHostResponseFromWire (w : TdispGuestToHostResponseWire) :
    Option ClientGuestToHostResponse :=
  match tdispGuestOperationErrorFromU64 w.result with
  | none => none
  | some result =>
    match deserialize_payload (commandIdFromU64 w.command_id) w.payload with
    | none => none
    | some payload =>
      some { command_id := commandIdFromU64 w.command_id,
             result := result,
             tdi_state_before := tdisp_state_from_hvcall w.tdi_state_before,
             tdi_state_after := tdisp_state_from_hvcall w.tdi_state_after,
             payload := payload }

/-- Outcome of `TdispVfioClientDevice::read_response`: `panicked` models a
panic inside the wire conversion, `mismatch` the command-ID-mismatch `Err`
return, `ok` a returned response. -/
inductive ReadResponseOutcome where
  | panicked
  | mismatch
  | ok (r : ClientGuestToHostResponse)
deriving DecidableEq, Repr

/-- `TdispVfioClientDevice::read_response` from openhcl_tdisp/src/lib.rs,
with the wire response read from the response buffer passed explicitly.
The source binds `response_id` from `command.command_id` (not from
`response.command_id`) before comparing it against `command.command_id`;
the embedding reproduces that binding exactly. -/
def read_response (command : ClientGuestToHostCommand)
    (response : TdispGuestToHostResponseWire) : ReadResponseOutcome :=
  let response_id : TdispCommandId := command.command_id
  if response_id ≠ command.command_id then
    .mismatch
  else
    match guestToHostResponseFromWire response with
    | none => .panicked
    | some r => .ok r


/-! ## Codec-supported pairings

The (command_id, payload) pairings for which the serialize.rs deserializers
have an arm (all other ids hit their catch-all `Err` arms), with numeric
fields within u64/u32 range. -/

/-- Command pairings the serialize.rs command deserializer supports. -/
def validCommandEncoding (c : GuestToHostCommand) : Bool :=
  decide (c.device_id < 2 ^ 64) &&
  match c.command_id, c.payload with
  | .GetDeviceInterfaceInfo, .None => true
  | .Bind, .None => true
  | .Unbind, .Unbind info => decide (info.unbind_reason < 2 ^ 64)
  | _, _ => false

/-- Response pairings the serialize.rs response deserializer supports. -/
def validResponseEncoding (r : GuestToHostResponse) : Bool :=
  match r.command_id, r.payload with
  | .GetDeviceInterfaceInfo, .GetDeviceInterfaceInfo info =>
    decide (info.interface_version_major < 2 ^ 32) &&
    decide (info.interface_version_minor < 2 ^ 32) &&
    decide (info.supported_features < 2 ^ 64)
  | .Bind, .None => true
  | .Unbind, .None => true
  | _, _ => false

/-! ## Helper lemmas -/

theorem step_preserves_ne_uninit (m m1 : TdispHostStateMachine) (req : GuestRequest)
    (hm : m.current_state ≠ .Uninitialized) (hs : step m req = some m1) :
    m1.current_state ≠ .Uninitialized := by
  cases req with
  | lock host =>
    cases h : m.current_state <;>
      simp_all [step, TdispHostStateMachine.request_lock_device_resources,
        TdispHostStateMachine.unbind_all, TdispHostStateMachine.transition_state_to,
        TdispHostStateMachine.is_valid_state_transition, ReqOutcome.machineAfter,
        pushCapped] <;>
      split_ifs at hs <;> simp_all <;> subst hs <;> simp
  | start host =>
    cases h : m.current_state <;>
      simp_all [step, TdispHostStateMachine.request_start_tdi,
        TdispHostStateMachine.unbind_all, TdispHostStateMachine.transition_state_to,
        TdispHostStateMachine.is_valid_state_transition, ReqOutcome.machineAfter,
        pushCapped] <;>
      split_ifs at hs <;> simp_all <;> subst hs <;> simp
  | report host rt =>
    cases h : m.current_state <;>
      rcases rt with r | r <;> cases r <;>
      simp_all [step, TdispHostStateMachine.request_attestation_report,
        TdispHostStateMachine.unbind_all, TdispHostStateMachine.transition_state_to,
        TdispHostStateMachine.is_valid_state_transition, ReqOutcome.machineAfter,
        pushCapped] <;>
      split_ifs at hs <;> simp_all <;> subst hs <;> simp
  | unbind host r =>
    cases h : m.current_state <;>
      cases r <;>
      simp_all [step, TdispHostStateMachine.request_unbind,
        TdispHostStateMachine.is_valid_guest_unbind_reason,
        TdispHostStateMachine.unbind_all, TdispHostStateMachine.transition_state_to,
        TdispHostStateMachine.is_valid_state_transition, ReqOutcome.machineAfter,
        pushCapped] <;>
      split_ifs at hs <;> simp_all <;> subst hs <;> simp

theorem reachable_ne_uninit (m : TdispHostStateMachine) (hm : Reachable m) :
    m.current_state ≠ .Uninitialized := by
  induction hm with
  | new => simp [TdispHostStateMachine.new]
  | step hr hs ih => exact step_preserves_ne_uninit _ _ _ ih hs

theorem opErrFromU64_none (n : Nat) (h : 7 < n) :
    tdispGuestOperationErrorFromU64 n = none := by
  obtain ⟨k, rfl⟩ : ∃ k, n = k + 8 := ⟨n - 8, by omega⟩
  rfl

theorem opErrFromU64_some (n : Nat) (h : n ≤ 7) :
    ∃ e, tdispGuestOperationErrorFromU64 n = some e := by
  interval_cases n <;> simp [tdispGuestOperationErrorFromU64]

theorem deserialize_payload_isSome (cid : TdispCommandId) (payload : List Nat)
    (h : 16 ≤ payload.length) : ∃ p, deserialize_payload cid payload = some p := by
  cases cid <;> simp [deserialize_payload, Nat.not_lt.mpr h]

theorem u64ToLeBytes_length (n : Nat) : (u64ToLeBytes n).length = 8 := rfl

theorem u32ToLeBytes_length (n : Nat) : (u32ToLeBytes n).length = 4 := rfl

theorem leBytesToNat_u64ToLeBytes (n : Nat) (h : n < 2 ^ 64) :
    leBytesToNat (u64ToLeBytes n) = n := by
  simp only [leBytesToNat, u64ToLeBytes, List.foldr]
  norm_num
  omega

theorem leBytesToNat_u32ToLeBytes (n : Nat) (h : n < 2 ^ 32) :
    leBytesToNat (u32ToLeBytes n) = n := by
  simp only [leBytesToNat, u32ToLeBytes, List.foldr]
  norm_num
  omega

theorem commandId_u64_roundtrip (cid : TdispCommandId) :
    commandIdFromU64 (commandIdToU64 cid) = cid := by
  cases cid <;> rfl

theorem commandIdToU64_lt (cid : TdispCommandId) : commandIdToU64 cid < 2 ^ 64 := by
  cases cid <;> simp [commandIdToU64]

theorem opErr_u64_roundtrip (e : TdispGuestOperationError) :
    tdispGuestOperationErrorFromU64 (tdispGuestOperationErrorToU64 e) = some e := by
  cases e <;> rfl

theorem opErrToU64_lt (e : TdispGuestOperationError) :
    tdispGuestOperationErrorToU64 e < 2 ^ 64 := by
  cases e <;> simp [tdispGuestOperationErrorToU64]

theorem tdiState_u64_roundtrip (s : TdispTdiState) :
    tdiStateFromU64 (tdiStateToU64 s) = s := by
  cases s <;> rfl

theorem tdiStateToU64_lt (s : TdispTdiState) : tdiStateToU64 s < 2 ^ 64 := by
  cases s <;> simp [tdiStateToU64]

/-! ## Claim theorems -/

/-- Claim C1: self-healing of the host state machine. For every reachable
machine whose state makes the request invalid per the transition table
(`request_lock_device_resources` outside `Unlocked`,
`request_start_tdi` outside `Locked`), given that the host unbind action
succeeds, the request returns `InvalidDeviceState`, the machine ends in
`Unlocked`, and the matching forced-unbind reason is appended to the
unbind-reason history. -/
theorem self_healing_state_errors (m : TdispHostStateMachine)
    (host : HostInterface) (hm : Reachable m) (hu : host.unbindOk = true) :
    (m.current_state ≠ .Unlocked →
      m.request_lock_device_resources host =
        .err .InvalidDeviceState
          { current_state := .Unlocked,
            state_history := pushCapped m.state_history m.current_state,
            unbind_reason_history :=
              pushCapped m.unbind_reason_history .InvalidGuestTransitionToLocked }) ∧
    (m.current_state ≠ .Locked →
      m.request_start_tdi host =
        .err .InvalidDeviceState
          { current_state := .Unlocked,
            state_history := pushCapped m.state_history m.current_state,
            unbind_reason_history :=
              pushCapped m.unbind_reason_history .InvalidGuestTransitionToRun }) := by
  have hne := reachable_ne_uninit m hm
  constructor <;> intro hstate <;> cases h : m.current_state <;>
    simp_all [TdispHostStateMachine.request_lock_device_resources,
      TdispHostStateMachine.request_start_tdi,
      TdispHostStateMachine.unbind_all, TdispHostStateMachine.transition_state_to,
      TdispHostStateMachine.is_valid_state_transition]

/-- Witness for C1 at a concrete reachable `Locked` machine. -/
theorem self_healing_state_errors_witness :
    (⟨.Locked, [.Unlocked], []⟩ : TdispHostStateMachine).request_lock_device_resources
        ⟨true, true, true, true, []⟩ =
      .err .InvalidDeviceState
        ⟨.Unlocked, [.Unlocked, .Locked], [.InvalidGuestTransitionToLocked]⟩ := by
  have hreach : Reachable ⟨.Locked, [.Unlocked], []⟩ :=
    @Reachable.step TdispHostStateMachine.new ⟨.Locked, [.Unlocked], []⟩
      (.lock ⟨true, true, true, true, []⟩) Reachable.new (by decide)
  have h := (self_healing_state_errors ⟨.Locked, [.Unlocked], []⟩
    ⟨true, true, true, true, []⟩ hreach rfl).1 (by decide)
  simpa [pushCapped] using h

/-- Claim C2: unbind universality. From every reachable machine and for
every guest unbind reason (recognized or not), given the host unbind action
succeeds, `request_unbind` returns success, drives the machine to
`Unlocked`, and records the reason (an unrecognized reason is recorded as
the invalid-reason marker). -/
theorem unbind_universality (m : TdispHostStateMachine) (host : HostInterface)
    (reason : TdispGuestUnbindReason) (hm : Reachable m)
    (hu : host.unbindOk = true) :
    m.request_unbind host reason =
      .ok ()
        { current_state := .Unlocked,
          state_history := pushCapped m.state_history m.current_state,
          unbind_reason_history := pushCapped m.unbind_reason_history
            (if reason = .Unknown then .InvalidGuestUnbindReason
             else .GuestInitiated reason) } := by
  have hne := reachable_ne_uninit m hm
  cases h : m.current_state <;> cases reason <;>
    simp_all [TdispHostStateMachine.request_unbind,
      TdispHostStateMachine.is_valid_guest_unbind_reason,
      TdispHostStateMachine.unbind_all, TdispHostStateMachine.transition_state_to,
      TdispHostStateMachine.is_valid_state_transition]

/-- Witness for C2 at the freshly constructed machine with the unrecognized
`Unknown` reason. -/
theorem unbind_universality_witness :
    TdispHostStateMachine.new.request_unbind ⟨true, true, true, true, []⟩ .Unknown =
      .ok () ⟨.Unlocked, [.Unlocked], [.InvalidGuestUnbindReason]⟩ := by
  have h := unbind_universality TdispHostStateMachine.new ⟨true, true, true, true, []⟩
    .Unknown Reachable.new rfl
  simpa [TdispHostStateMachine.new, pushCapped] using h

/-- Claim C3: fatal-invariant unreachability. For every machine reachable
from construction through the four guest request methods, the internal
drive-to-`Unlocked` transition inside `unbind_all` is accepted by the
transition table, so neither `unbind_all` nor any request ever reaches the
process-abort branch. -/
theorem fatal_invariant_unreachable (m : TdispHostStateMachine) (hm : Reachable m) :
    (∀ (host : HostInterface) (reason : TdispUnbindReason),
        m.unbind_all host reason ≠ .panicked) ∧
    (∀ req : GuestRequest, step m req ≠ none) := by
  have hne := reachable_ne_uninit m hm
  constructor
  · intro host reason
    cases h : m.current_state <;>
      simp_all [TdispHostStateMachine.unbind_all,
        TdispHostStateMachine.transition_state_to,
        TdispHostStateMachine.is_valid_state_transition] <;>
      split_ifs <;> simp
  · intro req
    cases req with
    | lock host =>
      cases h : m.current_state <;>
        simp_all [step, TdispHostStateMachine.request_lock_device_resources,
          TdispHostStateMachine.unbind_all, TdispHostStateMachine.transition_state_to,
          TdispHostStateMachine.is_valid_state_transition, ReqOutcome.machineAfter] <;>
        split_ifs <;> simp
    | start host =>
      cases h : m.current_state <;>
        simp_all [step, TdispHostStateMachine.request_start_tdi,
          TdispHostStateMachine.unbind_all, TdispHostStateMachine.transition_state_to,
          TdispHostStateMachine.is_valid_state_transition, ReqOutcome.machineAfter] <;>
        split_ifs <;> simp
    | report host rt =>
      cases h : m.current_state <;>
        rcases rt with r | r <;> cases r <;>
        simp_all [step, TdispHostStateMachine.request_attestation_report,
          TdispHostStateMachine.unbind_all, TdispHostStateMachine.transition_state_to,
          TdispHostStateMachine.is_valid_state_transition, ReqOutcome.machineAfter] <;>
        split_ifs <;> simp
    | unbind host r =>
      cases h : m.current_state <;> cases r <;>
        simp_all [step, TdispHostStateMachine.request_unbind,
          TdispHostStateMachine.is_valid_guest_unbind_reason,
          TdispHostStateMachine.unbind_all, TdispHostStateMachine.transition_state_to,
          TdispHostStateMachine.is_valid_state_transition, ReqOutcome.machineAfter] <;>
        split_ifs <;> simp

/-- Witness for C3 at the freshly constructed machine. -/
theorem fatal_invariant_unreachable_witness :
    TdispHostStateMachine.new.unbind_all ⟨false, false, false, false, []⟩ .Unknown ≠
        .panicked ∧
    step TdispHostStateMachine.new (.lock ⟨false, false, false, false, []⟩) ≠ none :=
  ⟨(fatal_invariant_unreachable _ Reachable.new).1 _ _,
    (fatal_invariant_unreachable _ Reachable.new).2 _⟩

/-- Claim C4: rollback on device-action failure. When the machine is in the
valid source state but the host bind (resp. start) action fails, the
request returns `HostFailedToProcessCommand` and the machine is completely
unchanged. -/
theorem rollback_on_device_failure (m : TdispHostStateMachine)
    (host : HostInterface) :
    (m.current_state = .Unlocked → host.bindOk = false →
      m.request_lock_device_resources host = .err .HostFailedToProcessCommand m) ∧
    (m.current_state = .Locked → host.startOk = false →
      m.request_start_tdi host = .err .HostFailedToProcessCommand m) := by
  constructor <;> intro h hb <;>
    simp [TdispHostStateMachine.request_lock_device_resources,
      TdispHostStateMachine.request_start_tdi, h, hb]

/-- Witness for C4 at the freshly constructed machine with a failing bind
action. -/
theorem rollback_on_device_failure_witness :
    TdispHostStateMachine.new.request_lock_device_resources
        ⟨false, true, true, true, []⟩ =
      .err .HostFailedToProcessCommand TdispHostStateMachine.new :=
  (rollback_on_device_failure TdispHostStateMachine.new
    ⟨false, true, true, true, []⟩).1 rfl rfl

/-- Claim C5, amended: the codec round-trips exactly the pairings its
deserializers support — commands `GetDeviceInterfaceInfo`/`Bind` with no
payload and `Unbind` with the unbind payload, responses
`GetDeviceInterfaceInfo` with the info payload and `Bind`/`Unbind` with no
payload; `StartTdi` and `GetTdiReport` packets have no deserializer arm in
this revision. -/
theorem codec_round_trip (c : GuestToHostCommand) (r : GuestToHostResponse)
    (hc : validCommandEncoding c = true) (hr : validResponseEncoding r = true) :
    GuestToHostCommand.deserialize_from_bytes c.serialize_to_bytes = .ok c ∧
    GuestToHostResponse.deserialize_from_bytes r.serialize_to_bytes = .ok r := by
  constructor
  · obtain ⟨d, cid, p⟩ := c
    simp only [validCommandEncoding, Bool.and_eq_true, decide_eq_true_eq] at hc
    obtain ⟨hd, hp⟩ := hc
    cases cid <;> cases p <;>
      simp [GuestToHostCommand.serialize_to_bytes,
        GuestToHostCommand.deserialize_from_bytes,
        List.take_append_eq_append_take, List.drop_append_eq_append_drop,
        u64ToLeBytes_length, List.take_of_length_le, List.drop_of_length_le,
        leBytesToNat_u64ToLeBytes _ (commandIdToU64_lt _),
        commandIdToU64, commandIdFromU64] <;>
      simp_all [leBytesToNat_u64ToLeBytes]
  · obtain ⟨cid, res, sb, sa, p⟩ := r
    cases cid <;> rcases p with _ | ⟨a, b, f⟩ <;>
      simp only [validResponseEncoding, Bool.and_eq_true, decide_eq_true_eq] at hr <;>
      simp [GuestToHostResponse.serialize_to_bytes,
        GuestToHostResponse.deserialize_from_bytes,
        List.take_append_eq_append_take, List.drop_append_eq_append_drop,
        u64ToLeBytes_length, u32ToLeBytes_length, List.take_of_length_le,
        List.drop_of_length_le,
        leBytesToNat_u64ToLeBytes _ (commandIdToU64_lt _),
        leBytesToNat_u64ToLeBytes _ (opErrToU64_lt _),
        leBytesToNat_u64ToLeBytes _ (tdiStateToU64_lt _),
        opErr_u64_roundtrip, tdiState_u64_roundtrip,
        commandIdToU64, commandIdFromU64] <;>
      simp_all [leBytesToNat_u64ToLeBytes, leBytesToNat_u32ToLeBytes]

/-- Witness for C5 at a concrete `Unbind` command and
`GetDeviceInterfaceInfo` response. -/
theorem codec_round_trip_witness :
    GuestToHostCommand.deserialize_from_bytes
        (GuestToHostCommand.serialize_to_bytes ⟨7, .Unbind, .Unbind ⟨9⟩⟩) =
      .ok ⟨7, .Unbind, .Unbind ⟨9⟩⟩ ∧
    GuestToHostResponse.deserialize_from_bytes
        (GuestToHostResponse.serialize_to_bytes
          ⟨.GetDeviceInterfaceInfo, .Success, .Unlocked, .Locked,
            .GetDeviceInterfaceInfo ⟨1, 0, 5⟩⟩) =
      .ok ⟨.GetDeviceInterfaceInfo, .Success, .Unlocked, .Locked,
            .GetDeviceInterfaceInfo ⟨1, 0, 5⟩⟩ :=
  ⟨(codec_round_trip ⟨7, .Unbind, .Unbind ⟨9⟩⟩
      ⟨.Bind, .Success, .Unlocked, .Unlocked, .None⟩ (by decide) (by decide)).1,
   (codec_round_trip ⟨0, .Bind, .None⟩
      ⟨.GetDeviceInterfaceInfo, .Success, .Unlocked, .Locked,
        .GetDeviceInterfaceInfo ⟨1, 0, 5⟩⟩ (by decide) (by decide)).2⟩

/-- Counterexample for C5 as stated: the claim's data model pairs the
`StartTdi` command with the `None` payload, but the serialize.rs
deserializer has no arm for `StartTdi` and errors, so the round trip fails
at that concrete input. -/
theorem codec_round_trip_cex :
    GuestToHostCommand.deserialize_from_bytes
        (GuestToHostCommand.serialize_to_bytes ⟨0, .StartTdi, .None⟩) = .fail ∧
    GuestToHostCommand.deserialize_from_bytes
        (GuestToHostCommand.serialize_to_bytes ⟨0, .StartTdi, .None⟩) ≠
      .ok ⟨0, .StartTdi, .None⟩ := by
  decide

/-- Claim C6 (code bug): the guest dispatcher's response identity check can
never fire, because `read_response` compares the sent command id against
itself; a wire response carrying a different command id is returned to the
caller as a success. -/
theorem response_identity_check_ineffective :
    (∀ (command : ClientGuestToHostCommand)
        (response : TdispGuestToHostResponseWire),
        read_response command response ≠ .mismatch) ∧
    (∃ r, read_response ⟨0, 0, .Bind⟩ ⟨3, 0, 1, 1, []⟩ = .ok r ∧
        r.command_id ≠ TdispCommandId.Bind) := by
  constructor
  · intro command response
    simp only [read_response, ne_eq, not_true_eq_false, if_false]
    split <;> simp
  · exact ⟨⟨.GetTdiReport, .Success, .Unlocked, .Unlocked, .None⟩, by decide, by decide⟩

/-- Claim C7, amended: out-of-range numeric command ids decode to `Unknown`
at the id layer, and the router answers an `Unknown` command with
`InvalidGuestCommandId` without touching the machine; but deserializing a
full wire command whose id decodes to `Unknown` fails at the decode layer
(see the counterexample). -/
theorem unknown_command_id_decode (n : Nat) (m : TdispHostStateMachine)
    (host : HostInterface) (c : RouterCommand) (hn : 5 < n)
    (hc : c.command_id = .Unknown) :
    commandIdFromU64 n = .Unknown ∧
    tdisp_handle_guest_command m host c =
      some ({ command_id := .Unknown, result := .InvalidGuestCommandId,
              tdi_state_before := m.current_state,
              tdi_state_after := m.current_state, payload := .None }, m) := by
  constructor
  · obtain ⟨k, rfl⟩ : ∃ k, n = k + 6 := ⟨n - 6, by omega⟩
    rfl
  · simp [tdisp_handle_guest_command, hc]

/-- Witness for C7 at id value 6 and a concrete `Unknown` router command. -/
theorem unknown_command_id_decode_witness :
    commandIdFromU64 6 = .Unknown ∧
    tdisp_handle_guest_command TdispHostStateMachine.new
        ⟨true, true, true, true, []⟩ ⟨0, 0, .Unknown, .None⟩ =
      some (⟨.Unknown, .InvalidGuestCommandId, .Unlocked, .Unlocked, .None⟩,
        TdispHostStateMachine.new) :=
  unknown_command_id_decode 6 TdispHostStateMachine.new
    ⟨true, true, true, true, []⟩ ⟨0, 0, .Unknown, .None⟩ (by decide) rfl

/-- Counterexample for C7 as stated: the wire bytes of a command header with
id 6 decode the id itself to `Unknown`, yet `deserialize_from_bytes`
returns an error at the decode layer rather than succeeding. -/
theorem unknown_command_id_decode_cex :
    commandIdFromU64 6 = .Unknown ∧
    GuestToHostCommand.deserialize_from_bytes
        (u64ToLeBytes 0 ++ u64ToLeBytes 6) = .fail := by
  decide

/-- Claim C8 (code bug): both deserializers slice the fixed header out of
the input without a length check, so any input shorter than the header
panics instead of returning a typed `Truncated` decode error. -/
theorem truncated_input_panics (bytes : List Nat) :
    (bytes.length < 16 → GuestToHostCommand.deserialize_from_bytes bytes = .panicked) ∧
    (bytes.length < 32 →
      GuestToHostResponse.deserialize_from_bytes bytes = .panicked) := by
  constructor <;> intro h <;>
    simp [GuestToHostCommand.deserialize_from_bytes,
      GuestToHostResponse.deserialize_from_bytes, h]

/-- Witness for C8 at the empty byte slice. -/
theorem truncated_input_panics_witness :
    GuestToHostCommand.deserialize_from_bytes [] = .panicked ∧
    GuestToHostResponse.deserialize_from_bytes [] = .panicked :=
  ⟨(truncated_input_panics []).1 (by decide), (truncated_input_panics []).2 (by decide)⟩

/-- Claim C9, amended: in the states where attestation is permitted
(`Locked` or `Run`), requesting a sentinel invalid report type returns
`InvalidGuestAttestationReportType` and leaves the machine completely
unchanged (no forced unbind, no recorded reason). -/
theorem sentinel_report_type_rejected (m : TdispHostStateMachine)
    (host : HostInterface) (rt : TdispDeviceReportType)
    (hstate : m.current_state = .Locked ∨ m.current_state = .Run)
    (hsent : rt = .TdiReport .TdiInfoInvalid ∨
      rt = .DeviceReport .DeviceInfoInvalid) :
    m.request_attestation_report host rt =
      .err .InvalidGuestAttestationReportType m := by
  rcases hstate with h | h <;> rcases hsent with rfl | rfl <;>
    simp [TdispHostStateMachine.request_attestation_report, h]

/-- Witness for C9 at a concrete `Locked` machine. -/
theorem sentinel_report_type_rejected_witness :
    (⟨.Locked, [], []⟩ : TdispHostStateMachine).request_attestation_report
        ⟨true, true, true, true, []⟩ (.TdiReport .TdiInfoInvalid) =
      .err .InvalidGuestAttestationReportType ⟨.Locked, [], []⟩ :=
  sentinel_report_type_rejected ⟨.Locked, [], []⟩ ⟨true, true, true, true, []⟩
    (.TdiReport .TdiInfoInvalid) (Or.inl rfl) (Or.inl rfl)

/-- Counterexample for C9 as stated: from the `Unlocked` state the
state check runs first, so a sentinel report type yields
`InvalidGuestAttestationReportState` with a forced unbind (histories
appended), not `InvalidGuestAttestationReportType` with the state
untouched. -/
theorem sentinel_report_type_rejected_cex :
    TdispHostStateMachine.new.request_attestation_report
        ⟨true, true, true, true, []⟩ (.TdiReport .TdiInfoInvalid) ≠
      .err .InvalidGuestAttestationReportType TdispHostStateMachine.new ∧
    TdispHostStateMachine.new.request_attestation_report
        ⟨true, true, true, true, []⟩ (.TdiReport .TdiInfoInvalid) =
      .err .InvalidGuestAttestationReportState
        ⟨.Unlocked, [.Unlocked], [.InvalidGuestGetAttestationReportState]⟩ := by
  decide

/-- Claim C10: decoding a wire response result code is partial — the
conversion panics for every result value above 7 and, for values up to 7,
returns the response whose result is the corresponding
`TdispGuestOperationError`. -/
theorem response_result_code_decode :
    (∀ n, 7 < n → tdispGuestOperationErrorFromU64 n = none) ∧
    (∀ n e, tdispGuestOperationErrorFromU64 n = some e →
        tdispGuestOperationErrorToU64 e = n) ∧
    (∀ w : TdispGuestToHostResponseWire, 7 < w.result →
        guestToHostResponseFromWire w = none) ∧
    (∀ w : TdispGuestToHostResponseWire, w.result ≤ 7 → 16 ≤ w.payload.length →
        ∃ r, guestToHostResponseFromWire w = some r ∧
          tdispGuestOperationErrorFromU64 w.result = some r.result) := by
  refine ⟨opErrFromU64_none, ?_, ?_, ?_⟩
  · intro n e h
    rcases n with _|_|_|_|_|_|_|_|n <;>
      simp_all [tdispGuestOperationErrorFromU64, tdispGuestOperationErrorToU64] <;>
      subst h <;> rfl
  · intro w hw
    simp [guestToHostResponseFromWire, opErrFromU64_none _ hw]
  · intro w h1 h2
    obtain ⟨e, he⟩ := opErrFromU64_some _ h1
    obtain ⟨p, hp⟩ := deserialize_payload_isSome (commandIdFromU64 w.command_id) _ h2
    refine ⟨{ command_id := commandIdFromU64 w.command_id, result := e,
              tdi_state_before := tdisp_state_from_hvcall w.tdi_state_before,
              tdi_state_after := tdisp_state_from_hvcall w.tdi_state_after,
              payload := p }, ?_, ?_⟩
    · simp [guestToHostResponseFromWire, he, hp]
    · simp [he]

/-- Witness for C10 at result values 8 and 0. -/
theorem response_result_code_decode_witness :
    tdispGuestOperationErrorFromU64 8 = none ∧
    (∃ r, guestToHostResponseFromWire ⟨1, 0, 1, 2, List.replicate 16 0⟩ = some r ∧
        tdispGuestOperationErrorFromU64 0 = some r.result) :=
  ⟨response_result_code_decode.1 8 (by decide),
   response_result_code_decode.2.2.2 ⟨1, 0, 1, 2, List.replicate 16 0⟩
     (by decide) (by simp)⟩

end Tdisp
